import Mathlib

/-!
# Verification of the AGView OBS wrapper and mobile gateway

Shallow embedding of the AGView repository's original logic:

* the static `supportedFiles` table (`src/app/_globals/supportedFilesFilters.ts`),
* the file-extension dispatch of `OBS.addFile` (`src/worker/obs.ts`), together
  with the older inline-`SUPPORTED_EXT` variant of `addFile`,
* the scene-item layout computation `OBS.alignItem`,
* the `OBS.setSetting` persistence logic,
* the `OBS.initOBS` error mapping, and
* the mobile gateway's `/connect` and `/disconnect` handlers.

Numbers that the source manipulates as JS doubles (canvas sizes, scales,
positions) are modelled as rationals; `Math.floor` becomes `Int.floor`.
File paths and settings values are strings.
-/

namespace AGView

/-- One entry of the static table of supported file types
(`supportedFilesFilters.ts`). -/
structure SupportedFileType where
  extensions : List String
  prettyName : String
  obsName : String
deriving Repr, DecidableEq

/-- The static `supportedFiles` table, in declaration order. -/
def supportedFiles : List SupportedFileType := [
  { extensions := ["png", "jpg", "jpeg", "tga", "bmp"],
    prettyName := "Image files",
    obsName := "image_source" },
  { extensions := ["mp4", "ts", "mov", "flv", "mkv", "avi", "mp3", "ogg", "aac", "wav", "gif", "webm"],
    prettyName := "Video files",
    obsName := "ffmpeg_source" },
  { extensions := ["txt"],
    prettyName := "Text files",
    obsName := "text_gdiplus" },
  { extensions := ["html"],
    prettyName := "HTML files",
    obsName := "browser_source" } ]

/-- The kind-specific settings records that `addFile` builds. Field names
follow the JS object keys (`file`, `is_local_file`, `local_file`, `looping`,
`read_from_file`). -/
inductive SourceSettings where
  | image (file : String)
  | browser (is_local_file : Bool) (local_file : String)
  | ffmpeg (is_local_file : Bool) (local_file : String) (looping : Bool)
  | text (read_from_file : Bool) (file : String)
deriving Repr, DecidableEq

/-- The if-chain of `OBS.addFile` that builds a settings record from the
matched entry's `obsName`; `none` models the JS `settings = null`. -/
def buildSettings (obsName filePath : String) : Option SourceSettings :=
  if obsName = "image_source" then
    some (SourceSettings.image filePath)
  else if obsName = "browser_source" then
    some (SourceSettings.browser true filePath)
  else if obsName = "ffmpeg_source" then
    some (SourceSettings.ffmpeg true filePath true)
  else if obsName = "text_gdiplus" then
    some (SourceSettings.text true filePath)
  else
    none

/-- Engine-side side effects that `addFile` issues on a successful match. -/
inductive EngineCmd where
  | createSource (id : String) (kind : String) (settings : SourceSettings)
  | createScene (id : String)
  | addToScene (sceneId sourceId : String)
  | scheduleTransition (delayMs : Nat) (sceneId : String)
deriving Repr, DecidableEq

/-- JS `String.prototype.split(".")` on the path's characters: splitting an
empty string yields `[[]]`, a separator at the end yields a trailing empty
segment. -/
def splitOnDot : List Char → List (List Char)
  | [] => [[]]
  | c :: rest =>
    match splitOnDot rest with
    | [] => [[]]
    | s :: ss => if c = '.' then [] :: s :: ss else (c :: s) :: ss

/-- `realpath.split(".").splice(-1)[0]` followed by the `if (!ext) return null`
check and `toLowerCase`: the lowercased last dot-separated segment, or `none`
when that segment is empty (the only falsy string). -/
def extOf (realpath : String) : Option String :=
  let e := (splitOnDot realpath.toList).getLastD []
  if e = [] then none else some (String.mk (e.map Char.toLower))

/-- The `for (const type of supportedFiles)` loop of `OBS.addFile`:
skip entries whose `extensions` list misses `ext`; on a match build the
settings, and when they are non-null create the source, create a fresh
scene, add the source to it and schedule a transition after 1000 ms.
Returns the created source (kind and settings) with the command list. -/
def addFileLoop (filePath ext sceneId uuidStr : String) :
    List SupportedFileType → Option (String × SourceSettings) × List EngineCmd
  | [] => (none, [])
  | t :: rest =>
    if ext ∈ t.extensions then
      match buildSettings t.obsName filePath with
      | some s =>
        (some (t.obsName, s),
          [EngineCmd.createSource (t.obsName ++ "_" ++ uuidStr) t.obsName s,
           EngineCmd.createScene sceneId,
           EngineCmd.addToScene sceneId (t.obsName ++ "_" ++ uuidStr),
           EngineCmd.scheduleTransition 1000 sceneId])
      | none => addFileLoop filePath ext sceneId uuidStr rest
    else addFileLoop filePath ext sceneId uuidStr rest

/-- `OBS.addFile` (current wrapper, `src/worker/obs.ts`): `filePath` is
`slide.filePath`, `realpath` the symlink-resolved path computed by
`fs.realpathSync`, `sceneId` the `Math.random().toString()` scene key and
`uuidStr` the generated UUID suffix. -/
def addFile (filePath realpath sceneId uuidStr : String) :
    Option (String × SourceSettings) × List EngineCmd :=
  match extOf realpath with
  | none => (none, [])
  | some ext => addFileLoop filePath ext sceneId uuidStr supportedFiles

/-- The inline `SUPPORTED_EXT` object of the older `addFile` variant, as an
association list in the object's key insertion order (which is the order
`Object.keys` iterates string keys in). -/
def SUPPORTED_EXT : List (String × List String) := [
  ("image_source", ["png", "jpg", "jpeg", "tga", "bmp"]),
  ("ffmpeg_source", ["mp4", "ts", "mov", "flv", "mkv", "avi", "mp3", "ogg", "aac", "wav", "gif", "webm"]),
  ("browser_source", ["html"]),
  ("text_gdiplus", ["txt"]) ]

/-- The settings-building if-chain of the older `addFile` variant; its
branches and field values are textually the same as the current wrapper's. -/
def buildSettingsOld (type filePath : String) : Option SourceSettings :=
  if type = "image_source" then
    some (SourceSettings.image filePath)
  else if type = "browser_source" then
    some (SourceSettings.browser true filePath)
  else if type = "ffmpeg_source" then
    some (SourceSettings.ffmpeg true filePath true)
  else if type = "text_gdiplus" then
    some (SourceSettings.text true filePath)
  else
    none

/-- The `for (const type of types)` loop of the older `addFile` variant,
iterating the keys of `SUPPORTED_EXT`. Only the selected kind and settings
are modelled here (its side effects differ from the current wrapper's and
are not compared by any claim). -/
def addFileOldLoop (filePath ext : String) :
    List (String × List String) → Option (String × SourceSettings)
  | [] => none
  | (type, exts) :: rest =>
    if ext ∈ exts then
      match buildSettingsOld type filePath with
      | some s => some (type, s)
      | none => addFileOldLoop filePath ext rest
    else addFileOldLoop filePath ext rest

/-- The older `addFile(path)` variant: same extension extraction, then the
inline `SUPPORTED_EXT` dispatch. -/
def addFileOld (filePath realpath : String) : Option (String × SourceSettings) :=
  match extOf realpath with
  | none => none
  | some ext => addFileOldLoop filePath ext SUPPORTED_EXT

/-! ## Layout: `OBS.alignItem` -/

/-- A 2-component vector of JS numbers (scale or position), as rationals. -/
structure Vec2 where
  x : ℚ
  y : ℚ
deriving Repr, DecidableEq

/-- The native size of a scene item's source (`sceneItem.source.width/height`). -/
structure SourceInfo where
  width : ℚ
  height : ℚ
deriving Repr, DecidableEq

/-- A scene item: its source's native size and its mutable scale and
position. -/
structure SceneItem where
  source : SourceInfo
  scale : Vec2
  position : Vec2
deriving Repr, DecidableEq

/-- `OBS.alignItem`: `width`/`height` are the canvas size read from the
settings store; the item's scale is set on both axes to
`Math.floor((smallestSide / source.width) * 100) / 100`, and the position is
set only in the strict-portrait and strict-landscape branches. -/
def alignItem (width height : ℚ) (item : SceneItem) : SceneItem :=
  let smallestSide := if width < height then width else height
  let scale : ℚ := (Int.floor ((smallestSide / item.source.width) * 100) : ℚ) / 100
  let item1 := { item with scale := ⟨scale, scale⟩ }
  if width < height then
    { item1 with position := ⟨0, (height - item.source.height * scale) / 2⟩ }
  else if height < width then
    { item1 with position := ⟨(width - item.source.width * scale) / 2, 0⟩ }
  else
    item1

/-! ## Mobile gateway: `/connect` and `/disconnect` -/

/-- The device record sent by a connecting mobile. -/
structure Device where
  model : String
  deviceType : String
  os : String
  osVersion : String
  sdkVersion : String
  language : String
  manufacturer : String
  uuid : String
  region : String
deriving Repr, DecidableEq

/-- One entry of the `connectedMobiles` list. -/
structure ConnectedMobile where
  device : Device
deriving Repr, DecidableEq

/-- The `/connect` handler: push the request's device onto the list. -/
def connectHandler (mobiles : List ConnectedMobile) (d : Device) :
    List ConnectedMobile :=
  mobiles ++ [⟨d⟩]

/-- The `/disconnect` handler: keep the entries whose device UUID differs
from the request's `deviceId`. -/
def disconnectHandler (mobiles : List ConnectedMobile) (deviceId : String) :
    List ConnectedMobile :=
  mobiles.filter (fun d => d.device.uuid ≠ deviceId)

/-! ## Settings: `OBS.setSetting` -/

/-- One parameter of an OBS settings subcategory. `V` is the JS value type
(string or number); values compared by `!=` in the source are of one type
per parameter, so loose equality coincides with equality. -/
structure SettingParam (V : Type) where
  name : String
  currentValue : V
deriving Repr, DecidableEq

/-- One subcategory of an OBS settings container. -/
structure SubCategory (V : Type) where
  nameSubCategory : String
  parameters : List (SettingParam V)
deriving Repr, DecidableEq

/-- The `oldValue` computed by `setSetting`'s double `forEach`: the previous
`currentValue` of the LAST parameter named `parameter`, or `none`
(JS `undefined`) when no parameter matches. -/
def oldValueOf {V : Type} (settings : List (SubCategory V)) (parameter : String) :
    Option V :=
  (settings.flatMap (fun sub => sub.parameters)).foldl
    (fun acc p => if p.name = parameter then some p.currentValue else acc) none

/-- The in-memory mutation of `setSetting`'s double `forEach`: every
parameter named `parameter` gets `currentValue := value`. -/
def updateSettings {V : Type} (settings : List (SubCategory V))
    (parameter : String) (value : V) : List (SubCategory V) :=
  settings.map (fun sub =>
    { sub with parameters := sub.parameters.map (fun p =>
        if p.name = parameter then { p with currentValue := value } else p) })

/-- `OBS.setSetting` on a settings container fetched from the engine:
returns `some container` when `OBS_settings_saveSettings` is called with
that container, `none` when the save is skipped (`value != oldValue` is
false). -/
def setSetting {V : Type} [DecidableEq V] (settings : List (SubCategory V))
    (parameter : String) (value : V) : Option (List (SubCategory V)) :=
  let updated := updateSettings settings parameter value
  match oldValueOf settings parameter with
  | none => some updated
  | some ov => if value ≠ ov then some updated else none

/-! ## Init: `OBS.initOBS` -/

/-- The `errorReasons` map of `initOBS`, keyed by the numeric init result
(the source keys it by `initResult.toString()`, which distinguishes exactly
the same codes). -/
def errorReasons : List (Int × String) := [
  (-2, "DirectX could not be found on your system. Please install the latest version of DirectX for your machine here <https://www.microsoft.com/en-us/download/details.aspx?id=35?> and try again."),
  (-5, "Failed to initialize OBS. Your video drivers may be out of date, or Streamlabs OBS may not be supported on your system.") ]

/-- The generic message for an unknown nonzero init result. -/
def unknownInitMessage (code : Int) : String :=
  "An unknown error #" ++ toString code ++ " was encountered while initializing OBS."

/-- The outcome of `initOBS` given the engine's init result code: `.error`
models the thrown `Error(errorMessage)`, and the boolean records whether
`this.shutdown()` was invoked. -/
def initOBS (initResult : Int) : Except String Unit × Bool :=
  if initResult ≠ 0 then
    let errorMessage :=
      ((errorReasons.find? (fun p => p.fst = initResult)).map (fun p => p.snd)).getD
        (unknownInitMessage initResult)
    (Except.error errorMessage, true)
  else
    (Except.ok (), false)

/-! ## Theorems -/

/-- C1: for every path whose resolved extension, lowercased, lies in one
entry of the `supportedFiles` table, `addFile` selects that entry's kind
(first match in declaration order) and builds the kind-specific settings
record: `image_source` gets `{file}`, `ffmpeg_source` gets
`{is_local_file, local_file, looping}`, `text_gdiplus` gets
`{read_from_file, file}`, `browser_source` gets
`{is_local_file, local_file}`, each holding the original (unresolved)
file path. -/
theorem addFile_supported_dispatch (filePath realpath sceneId uuidStr ext : String)
    (hext : extOf realpath = some ext) :
    (ext ∈ ["png", "jpg", "jpeg", "tga", "bmp"] →
      (addFile filePath realpath sceneId uuidStr).fst =
        some ("image_source", SourceSettings.image filePath)) ∧
    (ext ∈ ["mp4", "ts", "mov", "flv", "mkv", "avi", "mp3", "ogg", "aac", "wav", "gif", "webm"] →
      (addFile filePath realpath sceneId uuidStr).fst =
        some ("ffmpeg_source", SourceSettings.ffmpeg true filePath true)) ∧
    (ext ∈ ["txt"] →
      (addFile filePath realpath sceneId uuidStr).fst =
        some ("text_gdiplus", SourceSettings.text true filePath)) ∧
    (ext ∈ ["html"] →
      (addFile filePath realpath sceneId uuidStr).fst =
        some ("browser_source", SourceSettings.browser true filePath)) := by
  unfold addFile
  rw [hext]
  refine ⟨fun h => ?_, fun h => ?_, fun h => ?_, fun h => ?_⟩ <;> fin_cases h <;> rfl

/-- Witness for C1: an uppercase image extension is dispatched to
`image_source` with a `{file}` settings record. -/
theorem addFile_supported_dispatch_witness :
    (addFile "x.PNG" "/a/x.PNG" "0.5" "u").fst =
      some ("image_source", SourceSettings.image "x.PNG") :=
  (addFile_supported_dispatch "x.PNG" "/a/x.PNG" "0.5" "u" "png" (by decide)).1 (by decide)

/-- C2: when the resolved path yields no extension, or its lowercased
extension matches no entry of `supportedFiles`, `addFile` returns null and
issues no engine command (no source creation, no scene creation, no
scheduled transition). -/
theorem addFile_unsupported_null (filePath realpath sceneId uuidStr : String) :
    (extOf realpath = none →
      addFile filePath realpath sceneId uuidStr = (none, [])) ∧
    (∀ ext, extOf realpath = some ext →
      (∀ t ∈ supportedFiles, ext ∉ t.extensions) →
      addFile filePath realpath sceneId uuidStr = (none, [])) := by
  constructor
  · intro h
    unfold addFile
    rw [h]
  · intro ext hext h
    unfold addFile
    rw [hext]
    have h1 := h ⟨["png", "jpg", "jpeg", "tga", "bmp"], "Image files", "image_source"⟩ (by simp [supportedFiles])
    have h2 := h ⟨["mp4", "ts", "mov", "flv", "mkv", "avi", "mp3", "ogg", "aac", "wav", "gif", "webm"], "Video files", "ffmpeg_source"⟩ (by simp [supportedFiles])
    have h3 : ext ≠ "txt" := by
      simpa using h ⟨["txt"], "Text files", "text_gdiplus"⟩ (by simp [supportedFiles])
    have h4 : ext ≠ "html" := by
      simpa using h ⟨["html"], "HTML files", "browser_source"⟩ (by simp [supportedFiles])
    simp [addFileLoop, supportedFiles, h1, h2, h3, h4]

/-- Witness for C2: a path ending in a dot (empty extension) and a path
with the unsupported extension `xyz` both return null with no engine
commands. -/
theorem addFile_unsupported_null_witness :
    addFile "e." "/a/e." "0.5" "u" = (none, []) ∧
    addFile "f.xyz" "/a/f.xyz" "0.5" "u" = (none, []) :=
  ⟨(addFile_unsupported_null "e." "/a/e." "0.5" "u").1 (by decide),
   (addFile_unsupported_null "f.xyz" "/a/f.xyz" "0.5" "u").2 "xyz" (by decide) (by decide)⟩

/-- C10: on every input, the table-driven dispatch of the current `addFile`
and the inline `SUPPORTED_EXT` dispatch of the older variant select the
same source kind (or both none) and build equal settings records, despite
iterating `text_gdiplus` and `browser_source` in different orders. -/
theorem addFile_matches_oldVariant (filePath realpath sceneId uuidStr : String) :
    (addFile filePath realpath sceneId uuidStr).fst = addFileOld filePath realpath := by
  unfold addFile addFileOld
  cases hext : extOf realpath with
  | none => rfl
  | some ext =>
    by_cases h1 : ext ∈ ["png", "jpg", "jpeg", "tga", "bmp"]
    · fin_cases h1 <;> rfl
    · by_cases h2 : ext ∈ ["mp4", "ts", "mov", "flv", "mkv", "avi", "mp3", "ogg", "aac", "wav", "gif", "webm"]
      · fin_cases h2 <;> rfl
      · by_cases h3 : ext = "txt"
        · subst h3
          simp [addFileLoop, addFileOldLoop, supportedFiles, SUPPORTED_EXT, h1, h2,
            buildSettings, buildSettingsOld]
        · by_cases h4 : ext = "html"
          · subst h4
            simp [addFileLoop, addFileOldLoop, supportedFiles, SUPPORTED_EXT, h1, h2,
              buildSettings, buildSettingsOld]
          · simp [addFileLoop, addFileOldLoop, supportedFiles, SUPPORTED_EXT, h1, h2, h3, h4]

/-- C3: for every canvas and every item with positive native width, the
computed scale on both axes is `floor((min(width, height) / nativeWidth) *
100) / 100` (two-decimal truncation); for canvas 1920x1080 and a 500x500
item the scale is exactly 2.16. -/
theorem alignItem_scale (width height : ℚ) (item : SceneItem)
    (hw : 0 < item.source.width) :
    (alignItem width height item).scale =
      ⟨(⌊(min width height / item.source.width) * 100⌋ : ℚ) / 100,
       (⌊(min width height / item.source.width) * 100⌋ : ℚ) / 100⟩ ∧
    (alignItem 1920 1080 ⟨⟨500, 500⟩, item.scale, item.position⟩).scale =
      ⟨216 / 100, 216 / 100⟩ := by
  constructor
  · rcases lt_trichotomy width height with h | h | h
    · simp [alignItem, h, min_eq_left h.le]
    · subst h
      simp [alignItem]
    · simp [alignItem, h, not_lt.mpr h.le, min_eq_right h.le]
  · simp only [alignItem]
    norm_num

/-- Witness for C3: the 1920x1080 canvas with a 500x500 item realizes the
truncated-scale formula. -/
theorem alignItem_scale_witness :
    (alignItem 1920 1080 ⟨⟨500, 500⟩, ⟨1, 1⟩, ⟨9, 9⟩⟩).scale =
      ⟨(⌊(min (1920 : ℚ) 1080 / 500) * 100⌋ : ℚ) / 100,
       (⌊(min (1920 : ℚ) 1080 / 500) * 100⌋ : ℚ) / 100⟩ :=
  (alignItem_scale 1920 1080 ⟨⟨500, 500⟩, ⟨1, 1⟩, ⟨9, 9⟩⟩ (by norm_num)).1

/-- C4: on a portrait canvas the position is `(0, (height -
nativeHeight*scale)/2)`; on a landscape canvas it is `((width -
nativeWidth*scale)/2, 0)`; for canvas 1080x1920 and a 500x500 item the
position is vertically centered at `(0, 420)`. -/
theorem alignItem_position (width height : ℚ) (item : SceneItem) :
    (width < height →
      (alignItem width height item).position =
        ⟨0, (height - item.source.height * (alignItem width height item).scale.x) / 2⟩) ∧
    (height < width →
      (alignItem width height item).position =
        ⟨(width - item.source.width * (alignItem width height item).scale.x) / 2, 0⟩) ∧
    (alignItem 1080 1920 ⟨⟨500, 500⟩, item.scale, item.position⟩).position = ⟨0, 420⟩ := by
  refine ⟨fun h => ?_, fun h => ?_, ?_⟩
  · simp [alignItem, h]
  · simp [alignItem, h, not_lt.mpr h.le]
  · simp only [alignItem]
    norm_num

/-- Witness for C4: the portrait 1080x1920 canvas centers the 500x500 item
vertically with horizontal position 0. -/
theorem alignItem_position_witness :
    (alignItem 1080 1920 ⟨⟨500, 500⟩, ⟨1, 1⟩, ⟨9, 9⟩⟩).position =
      ⟨0, (1920 - (500 : ℚ) *
        (alignItem 1080 1920 ⟨⟨500, 500⟩, ⟨1, 1⟩, ⟨9, 9⟩⟩).scale.x) / 2⟩ :=
  (alignItem_position 1080 1920 ⟨⟨500, 500⟩, ⟨1, 1⟩, ⟨9, 9⟩⟩).1 (by norm_num)

/-- C5: on a square canvas `alignItem` leaves the position (and the source
size) of the item unchanged; only the scale field is written. -/
theorem alignItem_square_keeps_position (width height : ℚ) (item : SceneItem)
    (h : width = height) :
    (alignItem width height item).position = item.position ∧
    (alignItem width height item).source = item.source := by
  subst h
  simp [alignItem]

/-- Witness for C5: a 1000x1000 canvas keeps the item's position `(9, 9)`
and source size intact. -/
theorem alignItem_square_witness :
    (alignItem 1000 1000 ⟨⟨500, 500⟩, ⟨1, 1⟩, ⟨9, 9⟩⟩).position = ⟨9, 9⟩ ∧
    (alignItem 1000 1000 ⟨⟨500, 500⟩, ⟨1, 1⟩, ⟨9, 9⟩⟩).source = ⟨500, 500⟩ :=
  alignItem_square_keeps_position 1000 1000 ⟨⟨500, 500⟩, ⟨1, 1⟩, ⟨9, 9⟩⟩ rfl

/-- Counterexample to C6 as stated: over a list that already holds an entry
with UUID "A", connecting another "A" device and then disconnecting "A"
empties the list instead of restoring the pre-connect state, because the
disconnect filter removes ALL matching entries. -/
theorem connect_disconnect_counterexample :
    disconnectHandler
      (connectHandler [⟨⟨"m", "phone", "android", "11", "1", "en", "acme", "A", "eu"⟩⟩]
        ⟨"m", "phone", "android", "11", "1", "en", "acme", "A", "eu"⟩) "A" = [] ∧
    ([] : List ConnectedMobile) ≠
      [⟨⟨"m", "phone", "android", "11", "1", "en", "acme", "A", "eu"⟩⟩] := by
  constructor
  · decide
  · decide

/-- C6 (amended): for every connected-device list with no entry of UUID
"A", connecting a device of UUID "A" and then disconnecting "A" restores
the pre-connect list, and disconnecting "A" from such a list is a no-op. -/
theorem connect_disconnect_roundTrip (mobiles : List ConnectedMobile) (d : Device)
    (hA : d.uuid = "A") (hfree : ∀ m ∈ mobiles, m.device.uuid ≠ "A") :
    disconnectHandler (connectHandler mobiles d) "A" = mobiles ∧
    disconnectHandler mobiles "A" = mobiles := by
  have hkeep : disconnectHandler mobiles "A" = mobiles := by
    unfold disconnectHandler
    rw [List.filter_eq_self]
    intro m hm
    simpa using hfree m hm
  constructor
  · unfold disconnectHandler connectHandler
    rw [List.filter_append]
    have h2 : List.filter (fun m => m.device.uuid ≠ "A") [(⟨d⟩ : ConnectedMobile)] = [] := by
      simp [hA]
    rw [h2, List.append_nil]
    exact hkeep
  · exact hkeep

/-- Witness for amended C6: over a list holding only a UUID "B" device,
connect-then-disconnect of "A" and plain disconnect of "A" both leave the
list as it was. -/
theorem connect_disconnect_roundTrip_witness :
    disconnectHandler
      (connectHandler [⟨⟨"m", "phone", "android", "11", "1", "en", "acme", "B", "eu"⟩⟩]
        ⟨"m", "phone", "android", "11", "1", "en", "acme", "A", "eu"⟩) "A" =
      [⟨⟨"m", "phone", "android", "11", "1", "en", "acme", "B", "eu"⟩⟩] ∧
    disconnectHandler [⟨⟨"m", "phone", "android", "11", "1", "en", "acme", "B", "eu"⟩⟩] "A" =
      [⟨⟨"m", "phone", "android", "11", "1", "en", "acme", "B", "eu"⟩⟩] :=
  connect_disconnect_roundTrip _ _ rfl (by decide)

/-- C7: when the parameter's current value (the one `setSetting` reads
back, i.e. of the last matching parameter) equals the new value, no save
is issued; for any different value, exactly one save is issued and its
argument is the container updated with the new value. -/
theorem setSetting_save_iff_changed {V : Type} [DecidableEq V]
    (settings : List (SubCategory V)) (parameter : String) (v : V)
    (hv : oldValueOf settings parameter = some v) :
    setSetting settings parameter v = none ∧
    ∀ value : V, value ≠ v →
      setSetting settings parameter value = some (updateSettings settings parameter value) := by
  constructor
  · simp [setSetting, hv]
  · intro value hne
    simp [setSetting, hv, hne]

/-- Witness for C7: re-setting parameter `p` to its current value `a` skips
the save; setting it to `b` saves the updated container. -/
theorem setSetting_save_iff_changed_witness :
    setSetting [⟨"sub", [⟨"p", "a"⟩]⟩] "p" "a" = none ∧
    setSetting [⟨"sub", [⟨"p", "a"⟩]⟩] "p" "b" =
      some (updateSettings [⟨"sub", [⟨"p", "a"⟩]⟩] "p" "b") :=
  ⟨(setSetting_save_iff_changed [⟨"sub", [⟨"p", "a"⟩]⟩] "p" "a" rfl).1,
   (setSetting_save_iff_changed [⟨"sub", [⟨"p", "a"⟩]⟩] "p" "a" rfl).2 "b" (by decide)⟩

/-- If the concatenation of all extension lists has no duplicate, then any
extension is contained in at most one table entry. -/
theorem countP_mem_le_one (ts : List SupportedFileType)
    (hnd : (ts.flatMap (fun t => t.extensions)).Nodup) (x : String) :
    ts.countP (fun t => decide (x ∈ t.extensions)) ≤ 1 := by
  induction ts with
  | nil => simp
  | cons t rest ih =>
    rw [List.flatMap_cons, List.nodup_append] at hnd
    obtain ⟨h1, h2, hdisj⟩ := hnd
    rw [List.countP_cons]
    by_cases hx : x ∈ t.extensions
    · have hrest : rest.countP (fun t => decide (x ∈ t.extensions)) = 0 := by
        rw [List.countP_eq_zero]
        intro t' ht'
        simp only [decide_eq_true_eq]
        intro hx'
        exact hdisj hx (List.mem_flatMap.mpr ⟨t', ht', hx'⟩)
      simp [hx, hrest]
    · simpa [hx] using ih h2

/-- C8: the `supportedFiles` table has pairwise-disjoint extension lists,
every listed extension is lowercase (fixed by ASCII lowercasing) and
appears exactly once overall, so looking up any extension
case-insensitively matches at most one entry. -/
theorem supportedFiles_invariants :
    supportedFiles.Pairwise (fun a b => ∀ e ∈ a.extensions, e ∉ b.extensions) ∧
    (∀ t ∈ supportedFiles, ∀ e ∈ t.extensions, String.mk (e.toList.map Char.toLower) = e) ∧
    (supportedFiles.flatMap (fun t => t.extensions)).Nodup ∧
    (∀ ext : String,
      supportedFiles.countP (fun t => decide (ext.toLower ∈ t.extensions)) ≤ 1) := by
  refine ⟨by decide, by decide, by decide, fun ext => ?_⟩
  exact countP_mem_le_one supportedFiles (by decide) ext.toLower

/-- Witness for C8: `png` is already lowercase, and the case-insensitive
lookup of `PNG` matches at most one table entry. -/
theorem supportedFiles_invariants_witness :
    String.mk ("png".toList.map Char.toLower) = "png" ∧
    supportedFiles.countP (fun t => decide ("PNG".toLower ∈ t.extensions)) ≤ 1 :=
  ⟨supportedFiles_invariants.2.1 ⟨["png", "jpg", "jpeg", "tga", "bmp"], "Image files", "image_source"⟩
      (by simp [supportedFiles]) "png" (by simp),
   supportedFiles_invariants.2.2.2 "PNG"⟩

/-- C9: init result -2 and -5 map to their dedicated messages, every other
nonzero result maps to the generic unknown-error message carrying the
code, and in all failure cases shutdown is invoked and the error thrown;
result 0 raises no error and skips shutdown. -/
theorem initOBS_error_mapping :
    initOBS (-2) = (Except.error "DirectX could not be found on your system. Please install the latest version of DirectX for your machine here <https://www.microsoft.com/en-us/download/details.aspx?id=35?> and try again.", true) ∧
    initOBS (-5) = (Except.error "Failed to initialize OBS. Your video drivers may be out of date, or Streamlabs OBS may not be supported on your system.", true) ∧
    (∀ c : Int, c ≠ 0 → c ≠ -2 → c ≠ -5 →
      initOBS c = (Except.error (unknownInitMessage c), true)) ∧
    initOBS 0 = (Except.ok (), false) := by
  refine ⟨by rfl, by rfl, fun c h0 h2 h5 => ?_, by rfl⟩
  simp [initOBS, errorReasons, List.find?, h0, Ne.symm h2, Ne.symm h5]

/-- Witness for C9: the unknown nonzero code 7 yields the generic message
with shutdown invoked. -/
theorem initOBS_error_mapping_witness :
    initOBS 7 = (Except.error (unknownInitMessage 7), true) :=
  initOBS_error_mapping.2.2.1 7 (by decide) (by decide) (by decide)

end AGView
